import Mathlib

/-!
Shallow embedding of the peer-to-peer blockchain node
(src/model/hash.rs, src/model/block.rs, src/model/blockchain.rs,
src/main.rs, src/p2p.rs).

Modelling conventions:
* Rust machine integers are modelled by `Nat` (`u64`) and `Int` (`i64`);
  the ids and nonces reached by the program stay far below `2^64`, so no
  wrap-around is modelled.
* The SHA-256 digest comes from the external `sha2` crate; it is modelled
  by an explicit parameter `digest : String → String` (a pure, deterministic
  function, which SHA-256 hex encoding is).  Every definition that hashes
  takes `digest` as its first argument.
* A Rust `panic!` (including `unwrap()` on `None` and the out-of-bounds
  index reachable in `is_chain_valid`) is modelled by returning `none`
  from an `Option`-valued function.
* `serde_json::json!` serializes objects with keys in sorted order
  (`BTreeMap` backing); `encode_fields` reproduces that canonical encoding,
  so both `regenerate_hash` (src/model/block.rs lines 104-115) and
  `calculate_hash` (lines 117-134) are `digest` of the same encoding.
-/

/-- src/model/block.rs line 7: `const DIFFICULTY: &'static str = "0000";`. -/
def DIFFICULTY : String := "0000"

/-- Models Rust `str::starts_with` on hex strings. -/
def starts_with (s pre : String) : Bool :=
  List.isPrefixOf pre.toList s.toList

/-- src/model/hash.rs `matches_difficulty`: the hex text starts with the
difficulty string. -/
def matches_difficulty (hash difficulty : String) : Bool :=
  starts_with hash difficulty

/-- A character the `hex` crate accepts when decoding. -/
def is_hex_digit (c : Char) : Bool :=
  (decide ('0' ≤ c) && decide (c ≤ '9')) ||
  (decide ('a' ≤ c) && decide (c ≤ 'f')) ||
  (decide ('A' ≤ c) && decide (c ≤ 'F'))

/-- src/model/hash.rs `decode`: `hex::decode` succeeds exactly when the text
has even length and every character is a hex digit.  We only model success
versus failure, which is all `is_valid` inspects. -/
def decode_ok (s : String) : Bool :=
  s.toList.length % 2 == 0 && s.toList.all is_hex_digit

/-- One hex digit of the JSON `\u00XX` escape used by `serde_json`. -/
def hex_digit_char (n : Nat) : Char :=
  if n < 10 then Char.ofNat (48 + n) else Char.ofNat (87 + n)

/-- JSON escaping of a single character, as `serde_json` performs it. -/
def escape_char (c : Char) : String :=
  if c = '"' then "\\\""
  else if c = '\\' then "\\\\"
  else if c = '\x08' then "\\b"
  else if c = '\x0c' then "\\f"
  else if c = '\n' then "\\n"
  else if c = '\r' then "\\r"
  else if c = '\t' then "\\t"
  else if c.toNat < 32 then
    "\\u00" ++ String.singleton (hex_digit_char (c.toNat / 16)) ++
      String.singleton (hex_digit_char (c.toNat % 16))
  else String.singleton c

/-- JSON string literal for `s`, as `serde_json` prints it. -/
def json_string (s : String) : String :=
  "\"" ++ String.join (s.toList.map escape_char) ++ "\""

/-- The canonical JSON object built by `serde_json::json!` over the block
fields and rendered by `to_string()`: keys appear in sorted order
(`data`, `id`, `nonce`, `previous_hash`, `timestamp`), which is the same
for `regenerate_hash` and `calculate_hash`. -/
def encode_fields (id : Nat) (timestamp : Int) (nonce : Nat)
    (previous_hash data : String) : String :=
  "\x7b\"data\":" ++ json_string data ++
  ",\"id\":" ++ toString id ++
  ",\"nonce\":" ++ toString nonce ++
  ",\"previous_hash\":" ++ json_string previous_hash ++
  ",\"timestamp\":" ++ toString timestamp ++ "\x7d"

/-- src/model/block.rs `Header`: id, timestamp, nonce, own hash, previous
hash.  `Hash` (src/model/hash.rs) is a newtype over its hex text, so it is
modelled directly by `String`. -/
structure Header where
  id : Nat
  timestamp : Int
  nonce : Nat
  hash : String
  previous_hash : String
deriving DecidableEq, Repr

/-- src/model/block.rs `Block`: header plus opaque payload string. -/
structure Block where
  header : Header
  data : String
deriving DecidableEq, Repr

/-- src/model/blockchain.rs `Blockchain`: ordered sequence of blocks. -/
structure Blockchain where
  blocks : List Block
deriving DecidableEq, Repr

/-- src/model/block.rs lines 117-134 `calculate_hash`: digest of the
canonical JSON encoding of (id, timestamp, previous_hash, data, nonce). -/
def calculate_hash (digest : String → String) (id : Nat) (timestamp : Int)
    (previous_hash data : String) (nonce : Nat) : String :=
  digest (encode_fields id timestamp nonce previous_hash data)

/-- src/model/block.rs lines 104-115 `regenerate_hash`: digest of the
canonical JSON encoding of the block's own fields. -/
def regenerate_hash (digest : String → String) (b : Block) : String :=
  digest (encode_fields b.header.id b.header.timestamp b.header.nonce
    b.header.previous_hash b.data)

/-- src/model/block.rs lines 58-71 `Block::genesis`: hard-coded fields, the
timestamp taken from the clock (`Utc::now().timestamp()`), here an explicit
argument `now`. -/
def Block.genesis (now : Int) : Block :=
  { header :=
      { id := 0
        timestamp := now
        nonce := 0
        hash := "0000f816a87f806bb0073dcf026a64fb40c946b5abee2573702828694d5b4c43"
        previous_hash := "GENESIS!" }
    data := "GENESIS!" }

/-- src/model/block.rs lines 73-75 `is_genesis`: the block's id is 0. -/
def Block.is_genesis (b : Block) : Bool :=
  b.header.id == 0

/-- src/model/block.rs lines 77-102 `is_valid`: the five early-return checks,
in source order. -/
def Block.is_valid (digest : String → String) (self previous_block : Block) : Bool :=
  if self.header.previous_hash != previous_block.header.hash then false
  else if !(decode_ok self.header.hash) then false
  else if !(starts_with self.header.hash DIFFICULTY) then false
  else if self.header.id != previous_block.header.id + 1 then false
  else if regenerate_hash digest self != self.header.hash then false
  else true

/-- src/model/block.rs lines 140-162 `mine_block` loop body: try the current
nonce, return on a difficulty match, otherwise increment.  The Rust loop is
unbounded; `fuel` bounds the number of iterations modelled, `none` meaning
the loop did not return within `fuel` iterations. -/
def mine_block_go (digest : String → String) (id : Nat) (timestamp : Int)
    (previous_hash data : String) : Nat → Nat → Option (Nat × String)
  | 0, _ => none
  | fuel + 1, nonce =>
    let hash := calculate_hash digest id timestamp previous_hash data nonce
    if matches_difficulty hash DIFFICULTY then some (nonce, hash)
    else mine_block_go digest id timestamp previous_hash data fuel (nonce + 1)

/-- src/model/block.rs `mine_block`: the search starts at nonce 0. -/
def mine_block (digest : String → String) (id : Nat) (timestamp : Int)
    (previous_hash data : String) (fuel : Nat) : Option (Nat × String) :=
  mine_block_go digest id timestamp previous_hash data fuel 0

/-- src/model/blockchain.rs lines 9-11 `Blockchain::new`: empty block list. -/
def Blockchain.new : Blockchain :=
  { blocks := [] }

/-- src/model/blockchain.rs lines 13-17 `Blockchain::genesis`: ignores the
receiver and returns a fresh chain holding only the genesis block. -/
def Blockchain.genesis (now : Int) (_self : Blockchain) : Blockchain :=
  { blocks := [Block.genesis now] }

/-- Models `self.blocks.last()` (src/model/blockchain.rs line 20 and
src/p2p.rs line 186), whose `.unwrap()` panics when the chain is empty. -/
def latest_block (c : Blockchain) : Option Block :=
  c.blocks.getLast?

/-- src/model/blockchain.rs lines 19-28 `add_block`: `unwrap` the last block
(`none` models the panic on an empty chain), reject the block with an error
and an unchanged chain when `block.is_valid(latest)` fails, otherwise push
it and return `Ok(true)`. -/
def add_block (digest : String → String) (c : Blockchain) (block : Block) :
    Option (Except String Bool × Blockchain) :=
  match latest_block c with
  | none => none
  | some latest =>
    if !(Block.is_valid digest block latest) then
      some (Except.error "Invalid block!", c)
    else
      some (Except.ok true, { blocks := c.blocks ++ [block] })

/-- src/model/blockchain.rs lines 30-41 `is_chain_valid` iteration: for the
block at position `i`, a genesis block (id 0) passes unconditionally;
otherwise the code evaluates `self.blocks[i - 1].is_valid(block)` — at
`i = 0` the index `i - 1` underflows and the program panics (`none`).
`all` is short-circuiting: the walk stops at the first `false`. -/
def is_chain_valid_go (digest : String → String) (all : List Block) :
    Nat → List Block → Option Bool
  | _, [] => some true
  | i, b :: rest =>
    if Block.is_genesis b then is_chain_valid_go digest all (i + 1) rest
    else if i == 0 then none
    else
      match all[i - 1]? with
      | none => none
      | some prev =>
        if Block.is_valid digest prev b then
          is_chain_valid_go digest all (i + 1) rest
        else some false

/-- src/model/blockchain.rs lines 30-41 `is_chain_valid`. -/
def is_chain_valid (digest : String → String) (c : Blockchain) : Option Bool :=
  is_chain_valid_go digest c.blocks 0 c.blocks

/-- src/model/blockchain.rs lines 43-64 `choose_chain`: both validity flags
are computed from `self` (the receiver), not from the `local` and `remote`
arguments; `none` models the `panic!("Both chains are invalid!")` (and a
panic propagating out of `is_chain_valid`).  At its only call site
(src/p2p.rs line 103) the receiver and `local` are the same chain. -/
def choose_chain (digest : String → String)
    (self_chain localC remoteC : Blockchain) : Option Blockchain :=
  match is_chain_valid digest self_chain, is_chain_valid digest self_chain with
  | some is_local_valid, some is_remote_valid =>
    if !is_local_valid && !is_remote_valid then none
    else if is_local_valid && !is_remote_valid then some localC
    else if !is_local_valid && is_remote_valid then some remoteC
    else if localC.blocks.length > remoteC.blocks.length then some localC
    else some remoteC
  | _, _ => none

/-- src/p2p.rs lines 29-31 `LocalChainRequest`. -/
structure LocalChainRequest where
  from_peer_id : String
deriving DecidableEq, Repr

/-- src/main.rs lines 103-118 `handle_init_event`: replace the chain by a
fresh genesis chain, then, when the discovered peer list is non-empty, build
a `LocalChainRequest` whose `from_peer_id` is `last_peer.to_string()` — the
last enumerated peer, not the node's own id `self_peer` (which the request
construction never reads). -/
def handle_init_event (now : Int) (_self_peer : String) (peers : List String)
    (c : Blockchain) : Blockchain × Option LocalChainRequest :=
  (Blockchain.genesis now c,
   peers.getLast?.map (fun last_peer => { from_peer_id := last_peer }))

/-- src/p2p.rs lines 183-205 `handle_create_block` begins by unwrapping
`behaviour.blockchain.blocks.last()`; this is that tip access. -/
def handle_create_block_tip (c : Blockchain) : Option Block :=
  latest_block c

/-- Concrete stand-in for the digest parameter, used to evaluate the model
on closed inputs: a constant, well-formed-hex, difficulty-satisfying text. -/
def testDigest (_s : String) : String := "0000aa"

/-- Genesis block at timestamp 0. -/
def gBlock : Block := Block.genesis 0

/-- A second block with id 0 (treated as genesis by the chain walk),
differing from `gBlock` in its timestamp. -/
def gBlock2 : Block := Block.genesis 5

/-- A block correctly extending `gBlock` under `testDigest`: right previous
hash, successor id, and a hash that is hex, meets the difficulty and equals
the recomputed digest. -/
def nextBlock : Block :=
  { header :=
      { id := 1
        timestamp := 0
        nonce := 0
        hash := "0000aa"
        previous_hash := "0000f816a87f806bb0073dcf026a64fb40c946b5abee2573702828694d5b4c43" }
    data := "x" }

/-- A structurally broken block: wrong previous hash, non-hex own hash. -/
def badBlock : Block :=
  { header :=
      { id := 1
        timestamp := 0
        nonce := 0
        hash := "zz"
        previous_hash := "nope" }
    data := "junk" }

/-- A chain holding just the genesis block. -/
def chainG : Blockchain := { blocks := [gBlock] }

/-- A chain holding just the other id-0 block. -/
def chainG2 : Blockchain := { blocks := [gBlock2] }

/-- Genesis followed by the broken block: reported invalid by the chain
walk, and longer than `chainG`. -/
def chainBad : Blockchain := { blocks := [gBlock, badBlock] }

/-- C4: `is_valid` returns true exactly when the five checks all hold —
previous-hash linkage, well-formed hex hash, difficulty prefix, successor
id, and the recomputed digest reproducing the stored hash; any single
failure yields false. -/
theorem isValid_five_checks (digest : String → String) (self previous_block : Block) :
    Block.is_valid digest self previous_block =
      ((self.header.previous_hash == previous_block.header.hash) &&
       decode_ok self.header.hash &&
       starts_with self.header.hash DIFFICULTY &&
       (self.header.id == previous_block.header.id + 1) &&
       (regenerate_hash digest self == self.header.hash)) := by
  unfold Block.is_valid
  cases h1 : self.header.previous_hash == previous_block.header.hash <;>
  cases h2 : decode_ok self.header.hash <;>
  cases h3 : starts_with self.header.hash DIFFICULTY <;>
  cases h4 : self.header.id == previous_block.header.id + 1 <;>
  cases h5 : regenerate_hash digest self == self.header.hash <;>
  simp [h1, h2, h3, h4, h5] <;> simp_all

/-- C3: on a chain whose tip is `tip`, `add_block` appends the block and
returns `Ok(true)` exactly when `block.is_valid(tip)` holds, and otherwise
returns the `Invalid block!` error with the chain unchanged. -/
theorem add_block_gate (digest : String → String) (c : Blockchain)
    (block tip : Block) (h : latest_block c = some tip) :
    add_block digest c block =
      some (if Block.is_valid digest block tip then
              (Except.ok true, { blocks := c.blocks ++ [block] })
            else (Except.error "Invalid block!", c)) := by
  unfold add_block
  rw [h]
  cases hv : Block.is_valid digest block tip <;> simp [hv]

/-- Witness for C3 at the genesis-only chain and a correctly sealed block. -/
theorem add_block_gate_witness :
    latest_block chainG = some gBlock ∧
    add_block testDigest chainG nextBlock =
      some (if Block.is_valid testDigest nextBlock gBlock then
              (Except.ok true, { blocks := chainG.blocks ++ [nextBlock] })
            else (Except.error "Invalid block!", chainG)) :=
  ⟨rfl, add_block_gate testDigest chainG nextBlock gBlock rfl⟩

/-- The mining loop, started at nonce `s`, returns the least satisfying
nonce at or above `s` whenever the fuel reaches it. -/
theorem mine_block_go_finds (digest : String → String) (id : Nat) (ts : Int)
    (prev data : String) :
    ∀ (fuel s n : Nat), s ≤ n → n < s + fuel →
      matches_difficulty (calculate_hash digest id ts prev data n) DIFFICULTY = true →
      (∀ m, s ≤ m → m < n →
        matches_difficulty (calculate_hash digest id ts prev data m) DIFFICULTY = false) →
      mine_block_go digest id ts prev data fuel s =
        some (n, calculate_hash digest id ts prev data n) := by
  intro fuel
  induction fuel with
  | zero => intro s n hsn hlt _ _; omega
  | succ fuel ih =>
    intro s n hsn hlt hn hmin
    unfold mine_block_go
    by_cases hs : matches_difficulty (calculate_hash digest id ts prev data s) DIFFICULTY = true
    · have hsn' : s = n := by
        by_contra hne
        have hslt : s < n := lt_of_le_of_ne hsn hne
        have hfalse := hmin s le_rfl hslt
        rw [hs] at hfalse
        exact Bool.noConfusion hfalse
      subst hsn'
      simp [hs]
    · have hsf : matches_difficulty (calculate_hash digest id ts prev data s) DIFFICULTY = false :=
        Bool.eq_false_iff.mpr hs
      have hne : s ≠ n := by
        intro he
        rw [he, hn] at hsf
        exact Bool.noConfusion hsf
      simp only [hsf, Bool.false_eq_true, if_false]
      exact ih (s + 1) n (by omega) (by omega) hn
        (fun m hm1 hm2 => hmin m (by omega) hm2)

/-- C5: whenever some nonce seals the block and `n` is the least such nonce,
`mine_block` run with enough fuel returns exactly `n` paired with
`calculate_hash` at `n` — the search starts at 0 and skips nothing. -/
theorem mineBlock_least_nonce (digest : String → String) (id : Nat) (ts : Int)
    (prev data : String) (n fuel : Nat)
    (hn : matches_difficulty (calculate_hash digest id ts prev data n) DIFFICULTY = true)
    (hmin : ∀ m, m < n →
      matches_difficulty (calculate_hash digest id ts prev data m) DIFFICULTY = false)
    (hfuel : n < fuel) :
    mine_block digest id ts prev data fuel =
      some (n, calculate_hash digest id ts prev data n) :=
  mine_block_go_finds digest id ts prev data fuel 0 n (Nat.zero_le n) (by omega) hn
    (fun m _ hm => hmin m hm)

/-- Witness for C5 with the constant test digest: nonce 0 already matches. -/
theorem mineBlock_least_nonce_witness :
    mine_block testDigest 1 0 "p" "d" 1 =
      some (0, calculate_hash testDigest 1 0 "p" "d" 0) :=
  mineBlock_least_nonce testDigest 1 0 "p" "d" 0 1 (by decide)
    (fun m hm => absurd hm (Nat.not_lt_zero m)) (by decide)

/-- C1: a concrete reconciliation in which exactly one chain is entirely
valid and `choose_chain` nonetheless returns the invalid one.  As at the
only call site (src/p2p.rs line 103) the receiver is the local chain; the
remote chain `chainBad` is invalid but longer, and because both validity
flags are computed from the receiver, the invalid remote is returned. -/
theorem chooseChain_returns_invalid_remote :
    is_chain_valid testDigest chainG = some true ∧
    is_chain_valid testDigest chainBad = some false ∧
    chainG.blocks.length < chainBad.blocks.length ∧
    choose_chain testDigest chainG chainG chainBad = some chainBad := by
  refine ⟨by decide, by decide, by decide, by decide⟩

/-- C2: `is_chain_valid` passes the neighbouring blocks to `is_valid` in
reversed order (`blocks[i - 1].is_valid(block)`), so the two-block chain
consisting of genesis plus a block that is genuinely valid against genesis
is reported invalid. -/
theorem chainValid_swapped_arguments :
    Block.is_valid testDigest nextBlock gBlock = true ∧
    is_chain_valid testDigest { blocks := [gBlock, nextBlock] } = some false := by
  refine ⟨by decide, by decide⟩

/-- C6: `add_block` panics (models as `none`) exactly on the empty chain —
in particular on the state produced by `Blockchain::new()` — instead of
returning the `InvalidBlock` error, and `handle_create_block` unwraps the
same empty tip. -/
theorem addBlock_empty_chain_panics :
    (∀ (digest : String → String) (block : Block),
      add_block digest Blockchain.new block = none) ∧
    (∀ (digest : String → String) (c : Blockchain) (block : Block),
      add_block digest c block = none ↔ c.blocks = []) ∧
    handle_create_block_tip Blockchain.new = none := by
  refine ⟨fun digest block => rfl, fun digest c block => ?_, rfl⟩
  constructor
  · intro h
    unfold add_block latest_block at h
    cases hl : c.blocks.getLast? with
    | none => exact List.getLast?_eq_none_iff.mp hl
    | some x =>
      rw [hl] at h
      cases hv : Block.is_valid digest block x <;> simp [hv] at h
  · intro h
    unfold add_block latest_block
    rw [h]
    rfl

/-- C7: when the receiver coincides with the local chain (as at the only
call site, src/p2p.rs line 103) and both chains are entirely valid,
fork-choice returns the chain in the remote argument position on equal
lengths and the strictly longer chain on unequal lengths, in either
argument order. -/
theorem chooseChain_longest_tie_remote (digest : String → String)
    (a b : Blockchain)
    (ha : is_chain_valid digest a = some true)
    (hb : is_chain_valid digest b = some true) :
    (a.blocks.length = b.blocks.length →
      choose_chain digest a a b = some b ∧ choose_chain digest b b a = some a) ∧
    (b.blocks.length < a.blocks.length →
      choose_chain digest a a b = some a ∧ choose_chain digest b b a = some a) := by
  have key : ∀ x y : Blockchain, is_chain_valid digest x = some true →
      choose_chain digest x x y =
        if x.blocks.length > y.blocks.length then some x else some y := by
    intro x y hx
    unfold choose_chain
    rw [hx]
    rfl
  refine ⟨fun he => ⟨?_, ?_⟩, fun hlt => ⟨?_, ?_⟩⟩
  · rw [key a b ha, if_neg (by omega)]
  · rw [key b a hb, if_neg (by omega)]
  · rw [key a b ha, if_pos (by omega)]
  · rw [key b a hb, if_neg (by omega)]

/-- Witness for C7 at two distinct, equally long, valid genesis chains:
the remote-position chain wins the tie in both argument orders. -/
theorem chooseChain_longest_tie_remote_witness :
    (chainG.blocks.length = chainG2.blocks.length →
      choose_chain testDigest chainG chainG chainG2 = some chainG2 ∧
      choose_chain testDigest chainG2 chainG2 chainG = some chainG) ∧
    (chainG2.blocks.length < chainG.blocks.length →
      choose_chain testDigest chainG chainG chainG2 = some chainG ∧
      choose_chain testDigest chainG2 chainG2 chainG = some chainG) :=
  chooseChain_longest_tie_remote testDigest chainG chainG2 (by decide) (by decide)

/-- C8 counterexample: at the bootstrap event with own peer id `selfA` and
one discovered peer `peerB`, the emitted request carries `peerB` — the last
enumerated peer — in `from_peer_id`, not the sender's own id. -/
theorem initEvent_from_peer_not_self :
    (handle_init_event 0 "selfA" ["peerB"] Blockchain.new).2.map
        LocalChainRequest.from_peer_id ≠ some "selfA" ∧
    (handle_init_event 0 "selfA" ["peerB"] Blockchain.new).2.map
        LocalChainRequest.from_peer_id = some "peerB" := by
  refine ⟨by decide, by decide⟩

/-- C8 amended: on the bootstrap event the node replaces its chain with a
fresh genesis chain and, when a peer was discovered, sends a ChainRequest
whose `from_peer_id` is the last enumerated peer's id (the recipient). -/
theorem initEvent_requests_last_peer (now : Int) (self_peer : String)
    (peers : List String) (c : Blockchain) (p : String)
    (h : peers.getLast? = some p) :
    handle_init_event now self_peer peers c =
      ({ blocks := [Block.genesis now] }, some { from_peer_id := p }) := by
  unfold handle_init_event Blockchain.genesis
  rw [h]
  rfl

/-- Witness for the amended C8 at the singleton peer list. -/
theorem initEvent_requests_last_peer_witness :
    handle_init_event 0 "selfA" ["peerB"] Blockchain.new =
      ({ blocks := [Block.genesis 0] }, some { from_peer_id := "peerB" }) :=
  initEvent_requests_last_peer 0 "selfA" ["peerB"] Blockchain.new "peerB" rfl

/-- C9 counterexample: `genesis` reads the clock for its timestamp, so two
calls at different instants yield different blocks. -/
theorem genesis_not_constant : Block.genesis 0 ≠ Block.genesis 1 := by
  decide

/-- C9 amended: every call to `genesis` yields a block with the hard-coded
id 0, nonce 0, the pre-computed hash constant, the sentinel previous hash
and payload, while the timestamp is whatever the clock reads; no mining or
difficulty check is involved. -/
theorem genesis_fixed_fields (now : Int) :
    (Block.genesis now).header.id = 0 ∧
    (Block.genesis now).header.nonce = 0 ∧
    (Block.genesis now).header.hash =
      "0000f816a87f806bb0073dcf026a64fb40c946b5abee2573702828694d5b4c43" ∧
    (Block.genesis now).header.previous_hash = "GENESIS!" ∧
    (Block.genesis now).data = "GENESIS!" ∧
    (Block.genesis now).header.timestamp = now :=
  ⟨rfl, rfl, rfl, rfl, rfl, rfl⟩

/-- C10: the chain walk passes every block whose id is 0 without any check,
wherever it sits; hence the empty chain and every chain made only of id-0
blocks are reported entirely valid. -/
theorem chainValid_skips_id_zero :
    (∀ digest : String → String,
      is_chain_valid digest { blocks := [] } = some true) ∧
    (∀ (digest : String → String) (c : Blockchain),
      (∀ b ∈ c.blocks, b.header.id = 0) → is_chain_valid digest c = some true) := by
  have go : ∀ (digest : String → String) (all rest : List Block),
      (∀ b ∈ rest, b.header.id = 0) →
      ∀ i : Nat, is_chain_valid_go digest all i rest = some true := by
    intro digest all rest
    induction rest with
    | nil => intro _ i; rfl
    | cons b t ih =>
      intro h i
      have hb : b.header.id = 0 := h b (List.mem_cons_self b t)
      unfold is_chain_valid_go
      simp [Block.is_genesis, hb]
      exact ih (fun x hx => h x (List.mem_cons_of_mem b hx)) (i + 1)
  refine ⟨fun digest => rfl, fun digest c h => go digest c.blocks c.blocks h 0⟩

/-- Witness for C10: a two-element chain of id-0 blocks passes the walk. -/
theorem chainValid_skips_id_zero_witness :
    is_chain_valid testDigest { blocks := [gBlock, gBlock2] } = some true :=
  chainValid_skips_id_zero.2 testDigest { blocks := [gBlock, gBlock2] }
    (by decide)
